import Mathlib

/-!
Verification of the question-answering orchestration and retrieval pipeline
of the rai-compliance-frontend backend (`render-backend`). The definitions
below are a shallow embedding of the Python source:

* `services/ai.py` — duplicate suppression, rate limiting, circuit breaker,
  and `AIService.analyze_chunk` / `AIService._process_section`;
* `routes/analysis_routes.py` — `_process_standards_sequentially`,
  `_handle_analysis_completion`, `process_compliance_analysis`,
  `process_zap_mode_analysis`;
* `services/progress_tracker.py` — the `ProgressTracker` state machine.

Machine time is modelled as `ℚ` (Python `time.time()` floats), Python dicts
as association lists, and external collaborators (the vector store, the
completion model, the intelligent document analyzer, `hash`) as explicit
oracle inputs.  I/O effects (logging, file writes) are modelled as explicit
state where a claim depends on them and omitted otherwise.
-/

namespace Rai

/-! ### Association-list maps (Python `dict`) -/

/-- First-match lookup in an association list (Python `m[k]` / `k in m`). -/
def alookup {α : Type} (k : String) : List (String × α) → Option α
  | [] => none
  | (k', v) :: rest => if k' = k then some v else alookup k rest

/-- Insert-or-replace on the first matching binding (Python `m[k] = v`). -/
def ainsert {α : Type} (k : String) (v : α) : List (String × α) → List (String × α)
  | [] => [(k, v)]
  | (k', v') :: rest => if k' = k then (k, v) :: rest else (k', v') :: ainsert k v rest

/-- Remove the first matching binding (Python `del m[k]`). -/
def aremove {α : Type} (k : String) : List (String × α) → List (String × α)
  | [] => []
  | (k', v) :: rest => if k' = k then rest else (k', v) :: aremove k rest

/-! ### Duplicate-question suppression (ai.py:65-67, 138-148, 171-185)

`_processed_questions` is a module-level dict mapping a document id to the
set of Python `hash` values of the questions already processed for it.  The
hash function is an oracle parameter `h`. -/

/-- The `_processed_questions` module state: document id ↦ recorded hashes. -/
abbrev DupMap := List (String × List Int)

/-- Embedding of `check_duplicate_question(question, document_id)`
(ai.py:171-185): ensure the document's entry exists, report whether the
question's hash was already recorded, and record it if it was not. -/
def checkDuplicateQuestion (h : String → Int) (question documentId : String)
    (m : DupMap) : Bool × DupMap :=
  let hashes := (alookup documentId m).getD []
  let qh := h question
  if qh ∈ hashes then (true, ainsert documentId hashes m)
  else (false, ainsert documentId (qh :: hashes) m)

/-- Embedding of `clear_document_questions(document_id)` (ai.py:144-148):
clear the document's recorded hashes, if the document has an entry. -/
def clearDocumentQuestions (documentId : String) (m : DupMap) : DupMap :=
  match alookup documentId m with
  | some _ => ainsert documentId [] m
  | none => m

/-- The duplicate-set clearing step at the start of
`process_compliance_analysis` (analysis_routes.py:3120-3124): the
orchestrator clears the document's processed-question set before any
standard is processed. -/
def processComplianceStartClear (documentId : String) (m : DupMap) : DupMap :=
  clearDocumentQuestions documentId m

/-! ### Rate limiting and circuit breaker (ai.py:49-135, 188-241) -/

/-- `CIRCUIT_BREAKER_THRESHOLD = 10` (ai.py:54-56). -/
def CIRCUIT_BREAKER_THRESHOLD : ℕ := 10

/-- The module-level circuit-breaker state (ai.py:62-64):
`_consecutive_failures`, `_circuit_breaker_open`, `_circuit_breaker_opened_at`. -/
structure CircuitState where
  consecutiveFailures : ℕ
  breakerOpen : Bool
  openedAt : ℚ
deriving Repr, DecidableEq

/-- Embedding of `record_failure()` (ai.py:131-135). -/
def recordFailure (st : CircuitState) : CircuitState :=
  { st with consecutiveFailures := st.consecutiveFailures + 1 }

/-- Embedding of `reset_circuit_breaker()` (ai.py:94-99). -/
def resetCircuitBreaker (_st : CircuitState) : CircuitState :=
  { consecutiveFailures := 0, breakerOpen := false, openedAt := 0 }

/-- Embedding of `check_circuit_breaker()` (ai.py:102-128) at clock value
`now`.  `Except.error` is the `CircuitBreakerOpenError` raise, carrying the
module state as mutated before the raise.  An open breaker closes (and the
failure counter resets) only when strictly more than 300 seconds have
passed since it opened; a closed breaker with at least
`CIRCUIT_BREAKER_THRESHOLD` consecutive failures opens and raises. -/
def checkCircuitBreaker (now : ℚ) (st : CircuitState) :
    Except CircuitState CircuitState :=
  if st.breakerOpen then
    if now - st.openedAt > 300 then
      let st' : CircuitState := { st with breakerOpen := false, consecutiveFailures := 0 }
      if st'.consecutiveFailures ≥ CIRCUIT_BREAKER_THRESHOLD then
        Except.error { st' with breakerOpen := true, openedAt := now }
      else Except.ok st'
    else Except.error st
  else
    if st.consecutiveFailures ≥ CIRCUIT_BREAKER_THRESHOLD then
      Except.error { st with breakerOpen := true, openedAt := now }
    else Except.ok st

/-! ### `AIService.analyze_chunk` (ai.py:465-955)

The function is embedded as a pure transformer over explicit state.  The
external collaborators are oracle fields of `ChunkEnv`: the result of the
vector-store search, the result of the intelligent-analyzer enrichment, the
outcome of each completion-API attempt, and the structured content of a
successful model response (JSON parsing of an arbitrary string is replaced
by the parse outcome the code branches on).  A trace of `Event`s records
the checks performed and every completion-API call issued. -/

/-- A vector-search hit (`relevant_chunks` entries, ai.py:524-526). -/
structure RChunk where
  text : String
  pageNumber : Int
  chunkIndex : Int
deriving Repr, DecidableEq

/-- The value of the `evidence` field of a model response: the code handles
both a plain string and a list of strings (ai.py:448-453, 836-839). -/
inductive EvidenceVal
  | strE (s : String)
  | listE (l : List String)
deriving Repr, DecidableEq

/-- The normalized result `analyze_chunk` returns (the dict of ai.py:471-476
plus the optional `source_pages` annotation; the auxiliary
`content_analysis` / `disclosure_recommendations` / `enhanced_analysis`
fields are not modelled — no claim mentions them). -/
structure AnalysisResult where
  status : String
  confidence : ℚ
  explanation : String
  evidence : EvidenceVal
  suggestion : Option String := none
  sourcePages : List Int := []
deriving Repr, DecidableEq

/-- The fields of a successfully JSON-parsed model response; `none` models a
missing key (ai.py:711, 814-822). -/
structure RawResult where
  status : Option String := none
  confidence : Option ℚ := none
  explanation : Option String := none
  evidence : Option EvidenceVal := none
  suggestion : Option String := none
deriving Repr, DecidableEq

/-- What the tolerant regex fallback recovers from a non-JSON model response
(ai.py:712-812): whether the text mentions YES/NO, the optional
confidence / explanation / suggestion matches, and the pipe-separated
evidence lines. -/
structure FallbackInfo where
  containsYes : Bool
  containsNo : Bool
  confidenceMatch : Option ℚ := none
  explanationMatch : Option String := none
  hasPipe : Bool := false
  evidenceLines : List String := []
  suggestionMatch : Option String := none
deriving Repr, DecidableEq

/-- How the model response content parses: as JSON (ai.py:711) or via the
regex fallback (ai.py:712-812). -/
inductive ParseOutcome
  | jsonOk (r : RawResult)
  | jsonFail (f : FallbackInfo)
deriving Repr, DecidableEq

/-- A non-None model response content, described by how it parses. -/
structure ModelContent where
  parse : ParseOutcome
deriving Repr, DecidableEq

/-- The outcome of one completion-API attempt (ai.py:597-668): success
(whose content may still be Python `None`, ai.py:697), a 429/rate-limit
error, a timeout/connection error, or any other API error. -/
inductive ApiOutcome
  | ok (content : Option ModelContent)
  | rateLimited
  | connectionIssue (msg : String)
  | otherApiError (msg : String)
deriving Repr, DecidableEq

/-- The default IAS 40 sample-disclosure suggestion text (ai.py:771-773 and
ai.py:843-845; abbreviated here, the exact wording is not load-bearing). -/
def sampleSuggestionText : String :=
  "Provide a concrete, practical sample disclosure that would satisfy this IAS 40 requirement."

/-- The regex-fallback extraction (ai.py:719-773): status from YES/NO
mentions, confidence defaulting to 0.5, explanation defaulting, evidence
from pipe-separated lines, and a suggestion only when the status is NO. -/
def extractFallback (f : FallbackInfo) : RawResult :=
  let status := if f.containsYes then "YES" else if f.containsNo then "NO" else "N/A"
  let confidence := f.confidenceMatch.getD (1/2)
  let explanation := f.explanationMatch.getD "No detailed explanation provided."
  let evidence :=
    if f.hasPipe then
      if f.evidenceLines ≠ [] then EvidenceVal.listE f.evidenceLines
      else EvidenceVal.listE ["No structured evidence provided."]
    else EvidenceVal.listE ["Evidence not provided in the required format."]
  let suggestion :=
    if status = "NO" then some (f.suggestionMatch.getD sampleSuggestionText)
    else none
  { status := some status, confidence := some confidence,
    explanation := some explanation, evidence := some evidence,
    suggestion := suggestion }

/-- The emptiness test of ai.py:836-838,
`result["evidence"] == "" or all(e == "N/A | N/A | N/A | N/A" for e in
result["evidence"])`: for a string value iterating yields its characters,
and no single character equals the 19-character sentinel, so the test holds
exactly for the empty string; for a list it holds when every element is the
sentinel (vacuously for `[]`). -/
def evidenceDegenerate : EvidenceVal → Bool
  | .strE s => s = ""
  | .listE l => l.all (fun e => e = "N/A | N/A | N/A | N/A")

/-- The placeholder evidence inserted for degenerate evidence (ai.py:839). -/
def noEvidencePlaceholder : EvidenceVal :=
  .listE ["No relevant evidence found in the document."]

/-- The validate-and-clean step (ai.py:814-845): status clamped to
YES/NO/N-A with default N/A, confidence defaulting to 0.5, explanation
defaulting, degenerate evidence replaced by the placeholder, and a default
suggestion added when the status is NO and none was provided. -/
def validateResult (r : RawResult) : AnalysisResult :=
  let status :=
    match r.status with
    | some s => if s = "YES" ∨ s = "NO" ∨ s = "N/A" then s else "N/A"
    | none => "N/A"
  let confidence := r.confidence.getD (1/2)
  let explanation := r.explanation.getD "No explanation provided"
  let evidence0 := r.evidence.getD (.strE "")
  let evidence := if evidenceDegenerate evidence0 then noEvidencePlaceholder else evidence0
  let suggestion :=
    if status = "NO" ∧ r.suggestion = none then some sampleSuggestionText
    else r.suggestion
  { status := status, confidence := confidence, explanation := explanation,
    evidence := evidence, suggestion := suggestion }

/-- The positive page numbers of the retrieved chunks (ai.py:872-877). -/
def chunkPages (chunks : List RChunk) : List Int :=
  ((chunks.filter (fun c => 0 < c.pageNumber)).map (·.pageNumber)).dedup

/-- The page-number annotation (ai.py:870-899): collect the positive page
numbers of the retrieved chunks and store them deduplicated and sorted
(`sorted(list(set(page_numbers)))`). -/
def annotatePages (chunks : List RChunk) (r : AnalysisResult) : AnalysisResult :=
  if chunks ≠ [] then
    if chunkPages chunks ≠ [] then
      { r with sourcePages := (chunkPages chunks).insertionSort (· ≤ ·) }
    else r
  else r

/-- Result of the intelligent-analyzer enrichment
(`enhance_compliance_analysis`, ai.py:538-548); only the presence of the
`primary_evidence` field matters downstream of the claims. -/
structure Enhanced where
  primaryEvidence : Option String := none
deriving Repr, DecidableEq

/-- Events recorded along one `analyze_chunk` run: the duplicate check
(ai.py:493), the circuit-breaker check (ai.py:507), one event per
completion-API request issued (ai.py:597-606), and an admission through
`check_rate_limit_with_backoff` — which the code never performs on this
path (the call at ai.py:593-594 is commented out). -/
inductive Event
  | dupCheck
  | circuitCheck
  | modelCall
  | rateAdmit
deriving Repr, DecidableEq

/-- `MAX_RETRIES`-like bound of the inner API loop, `max_api_retries = 3`
(ai.py:590). -/
def MAX_API_RETRIES : ℕ := 3

/-- The early return for a missing/empty `current_document_id`
(ai.py:480-490). -/
def noDocumentIdResult : AnalysisResult :=
  { status := "Error", confidence := 0,
    explanation := "No document ID provided for vector search.",
    evidence := .strE "",
    suggestion := some "Check backend logic to ensure document_id is always set." }

/-- The early return for a duplicate question (ai.py:493-503). -/
def duplicateResult : AnalysisResult :=
  { status := "N/A", confidence := 0,
    explanation := "This question has already been processed for this document.",
    evidence := .strE "Duplicate question detected.",
    suggestion := some "Question already analyzed - check previous results." }

/-- The early return when the circuit breaker is open (ai.py:505-516); the
source interpolates the exception text into the explanation. -/
def circuitOpenResult : AnalysisResult :=
  { status := "N/A", confidence := 0,
    explanation := "Analysis temporarily unavailable: circuit breaker is open.",
    evidence := .strE "Circuit breaker open due to repeated failures.",
    suggestion := some "Please wait and retry the analysis later." }

/-- The catch-all degraded result (ai.py:947-955) as produced when
`get_vector_store()` is uninitialized and the `ValueError` of ai.py:521
reaches the handler. -/
def vectorStoreFailureResult : AnalysisResult :=
  { status := "N/A", confidence := 0,
    explanation := "Error during analysis: Vector store service not initialized",
    evidence := .strE "",
    suggestion := some "Consider adding explicit disclosure addressing this requirement." }

/-- The no-evidence short-circuit result (ai.py:560-568). -/
def noEvidenceShortCircuitResult : AnalysisResult :=
  { status := "N/A", confidence := 0,
    explanation := "No relevant content found in the document",
    evidence := .strE "",
    suggestion := some "Add a clear statement in the financial statement disclosures addressing this requirement." }

/-- The result returned after exhausting retries on rate limiting
(ai.py:626-635). -/
def rateLimitExhaustedResult : AnalysisResult :=
  { status := "N/A", confidence := 0,
    explanation := "Analysis could not be completed due to persistent API rate limits.",
    evidence := .strE "Multiple rate limit errors occurred.",
    suggestion := some "Please retry the analysis later when API rate limits reset." }

/-- The result returned after exhausting retries on connection errors
(ai.py:646-656); the source interpolates the error text. -/
def connectionFailedResult (msg : String) : AnalysisResult :=
  { status := "N/A", confidence := 0,
    explanation := "Analysis failed due to connection issues: " ++ msg,
    evidence := .strE "Connection error occurred.",
    suggestion := some "Please check network connectivity and retry the analysis." }

/-- The result returned for a non-retryable API error (ai.py:658-668). -/
def otherErrorResult (msg : String) : AnalysisResult :=
  { status := "N/A", confidence := 0,
    explanation := "Analysis failed due to API error: " ++ msg,
    evidence := .strE "API error occurred.",
    suggestion := some "Please retry the analysis or check system logs for details." }

/-- The defensive for-else exit of the retry loop (ai.py:669-678),
unreachable when the loop runs. -/
def unexpectedLoopExitResult : AnalysisResult :=
  { status := "N/A", confidence := 0,
    explanation := "Unexpected error during API retry loop",
    evidence := .strE "",
    suggestion := some "Please retry the analysis." }

/-- The early return when the API returned Python `None` content
(ai.py:696-706). -/
def noneContentResult : AnalysisResult :=
  { status := "Error", confidence := 0,
    explanation := "OpenAI API returned empty response",
    evidence := .strE "",
    suggestion := some "Please retry the analysis." }

/-- How the retry loop ends: with an early degraded result, or with the
content of a successful call (`break` at ai.py:611). -/
inductive LoopOutcome
  | early (r : AnalysisResult)
  | gotContent (c : Option ModelContent)
deriving Repr, DecidableEq

/-- The completion-API retry loop, `for api_retry in range(max_api_retries)`
(ai.py:591-678).  `api` is the outcome oracle for each attempt, `attempt`
the current index, `fuel` the remaining iterations (`MAX_API_RETRIES` at
entry).  Success resets the circuit breaker; every failure outcome records
a failure; rate-limit and connection errors retry while
`attempt < MAX_API_RETRIES - 1`, other errors return immediately.  Each
iteration issues exactly one API request (`Event.modelCall`). -/
def apiRetryLoop (api : ℕ → ApiOutcome) :
    ℕ → ℕ → CircuitState → LoopOutcome × CircuitState × List Event
  | 0, _, st => (.early unexpectedLoopExitResult, st, [])
  | fuel + 1, attempt, st =>
    match api attempt with
    | .ok c => (.gotContent c, resetCircuitBreaker st, [.modelCall])
    | .rateLimited =>
      let st' := recordFailure st
      if attempt < MAX_API_RETRIES - 1 then
        let rest := apiRetryLoop api fuel (attempt + 1) st'
        (rest.1, rest.2.1, .modelCall :: rest.2.2)
      else (.early rateLimitExhaustedResult, st', [.modelCall])
    | .connectionIssue msg =>
      let st' := recordFailure st
      if attempt < MAX_API_RETRIES - 1 then
        let rest := apiRetryLoop api fuel (attempt + 1) st'
        (rest.1, rest.2.1, .modelCall :: rest.2.2)
      else (.early (connectionFailedResult msg), st', [.modelCall])
    | .otherApiError msg =>
      (.early (otherErrorResult msg), recordFailure st, [.modelCall])

/-- The inputs of one `analyze_chunk` call, with the external collaborators
as oracles. -/
structure ChunkEnv where
  currentDocumentId : Option String
  question : String
  chunk : String
  standardId : Option String
  questionHash : String → Int
  now : ℚ
  vectorStoreReady : Bool
  relevantChunks : List RChunk
  enhancedOutcome : Option Enhanced
  api : ℕ → ApiOutcome

/-- The module-level mutable state `analyze_chunk` touches. -/
structure AiGlobalState where
  processedQuestions : DupMap
  circuit : CircuitState

/-- Embedding of `AIService.analyze_chunk` (ai.py:465-955).  Returns the
result dict, the updated module state, and the trace of events.  Control
flow follows the source: missing document id → error result; duplicate
question → canned result; open circuit breaker → canned result;
uninitialized vector store → `ValueError` caught by the catch-all handler;
no retrieval hits and no enrichment → no-evidence short circuit; otherwise
the API retry loop runs, and a successful non-None content is parsed
(JSON or regex fallback), validated and annotated with page numbers.  The
`check_rate_limit_with_backoff` admission present elsewhere in the module
is NOT called here: ai.py:593-594 comments it out ("RATE LIMITING
REMOVED"). -/
def analyzeChunk (env : ChunkEnv) (st : AiGlobalState) :
    AnalysisResult × AiGlobalState × List Event :=
  match env.currentDocumentId with
  | none => (noDocumentIdResult, st, [])
  | some docId =>
    if docId = "" then (noDocumentIdResult, st, [])
    else
      let dres := checkDuplicateQuestion env.questionHash env.question docId
        st.processedQuestions
      let st1 : AiGlobalState := { st with processedQuestions := dres.2 }
      if dres.1 then (duplicateResult, st1, [.dupCheck])
      else
        match checkCircuitBreaker env.now st1.circuit with
        | .error cb => (circuitOpenResult, { st1 with circuit := cb },
            [.dupCheck, .circuitCheck])
        | .ok cb =>
          let st2 : AiGlobalState := { st1 with circuit := cb }
          if env.vectorStoreReady = false then
            (vectorStoreFailureResult, st2, [.dupCheck, .circuitCheck])
          else
            let enhanced : Option Enhanced :=
              if env.chunk ≠ "" ∧ 1000 < env.chunk.length ∧ env.standardId.getD "" ≠ ""
              then env.enhancedOutcome else none
            if env.relevantChunks = [] ∧ enhanced = none then
              (noEvidenceShortCircuitResult, st2, [.dupCheck, .circuitCheck])
            else
              let loop := apiRetryLoop env.api MAX_API_RETRIES 0 st2.circuit
              let st3 : AiGlobalState := { st2 with circuit := loop.2.1 }
              let events := Event.dupCheck :: Event.circuitCheck :: loop.2.2
              let result :=
                match loop.1 with
                | .early r => r
                | .gotContent none => noneContentResult
                | .gotContent (some c) =>
                  let raw := match c.parse with
                    | .jsonOk r => r
                    | .jsonFail f => extractFallback f
                  annotatePages env.relevantChunks (validateResult raw)
              (result, st3, events)

/-- Whether every `modelCall` in the trace is preceded (anywhere earlier in
the trace) by the `marker` event; `seen` carries whether the marker has
occurred in the prefix already scanned. -/
def callsPrecededBy (marker : Event) : List Event → Bool → Bool
  | [], _ => true
  | e :: es, seen =>
    if e = .modelCall then seen && callsPrecededBy marker es seen
    else callsPrecededBy marker es (seen || e = marker)

/-! ### Claim C4: rate-governor admission before model calls -/

/-- A concrete environment that drives `analyze_chunk` to a successful
model call: a document id is set, the question is fresh, the breaker is
closed, the vector store returns one relevant chunk, and the first API
attempt succeeds. -/
def claim4Env : ChunkEnv :=
  { currentDocumentId := some "doc1", question := "Q1", chunk := "",
    standardId := none, questionHash := fun _ => 0, now := 0,
    vectorStoreReady := true, relevantChunks := [⟨"passage", 1, 0⟩],
    enhancedOutcome := none,
    api := fun _ => ApiOutcome.ok (some ⟨ParseOutcome.jsonOk {}⟩) }

/-- The module state for the C4 counterexample: nothing processed yet, the
circuit breaker closed. -/
def claim4State : AiGlobalState :=
  { processedQuestions := [], circuit := ⟨0, false, 0⟩ }

/-! ### Claim C7: result normalization -/

/-- A concrete input for the C7 counterexample: `analyze_chunk` called with
no `current_document_id` set (ai.py:480-490). -/
def claim7Env : ChunkEnv :=
  { currentDocumentId := none, question := "Q1", chunk := "",
    standardId := none, questionHash := fun _ => 0, now := 0,
    vectorStoreReady := true, relevantChunks := [],
    enhancedOutcome := none, api := fun _ => ApiOutcome.ok none }

/-- The module state for the C7 counterexample. -/
def claim7State : AiGlobalState :=
  { processedQuestions := [], circuit := ⟨0, false, 0⟩ }

/-- The inputs for the C8 witness: an empty/non-existent index for document
`"doc8"` (the vector search returns nothing), no enrichment, a fresh
question, a closed breaker. -/
def claim8Env : ChunkEnv :=
  { currentDocumentId := some "doc8", question := "Q8", chunk := "",
    standardId := none, questionHash := fun _ => 0, now := 0,
    vectorStoreReady := true, relevantChunks := [],
    enhancedOutcome := none, api := fun _ => ApiOutcome.ok none }

/-- The module state for the C8 witness. -/
def claim8State : AiGlobalState :=
  { processedQuestions := [], circuit := ⟨0, false, 0⟩ }

/-! ### `AIService._process_section` (ai.py:1230-1345)

Checklist items carry the fields the data model gives them (`id`,
`question`, `reference`); `analyze_chunk` is total (its catch-all handler,
ai.py:947-955, turns every exception into a degraded result dict), so the
per-question answering step is an `answer : String → AnalysisResult`
oracle, and the exception/non-dict skip branches of ai.py:1290-1309 are
unreachable.  The progress-tracker notifications issued inside the loop do
not affect the returned section and are treated in the
`ProgressTracker` section below. -/

/-- `CHUNK_SIZE = 50` (ai.py:35). -/
def CHUNK_SIZE : ℕ := 50

/-- A checklist item (`{id, question, reference}`). -/
structure ChecklistItem where
  id : String
  question : String
  reference : String := ""
deriving Repr, DecidableEq

/-- A checklist section (`{section, title, items}`). -/
structure ChecklistSection where
  sectionName : String
  title : String
  items : List ChecklistItem
deriving Repr, DecidableEq

/-- A processed item: the item's fields merged with the analysis result
(ai.py:1319-1326). -/
structure ProcessedItem where
  id : String
  question : String
  reference : String
  result : AnalysisResult
deriving Repr, DecidableEq

/-- A processed section (ai.py:1327-1331). -/
structure ProcessedSection where
  sectionName : String
  title : String
  items : List ProcessedItem
deriving Repr, DecidableEq

/-- The slices `items[i : i + CHUNK_SIZE]` for `i in range(0, len(items),
CHUNK_SIZE)` (ai.py:1258-1259).  The `n = 0` guard keeps the recursion
well-founded; the source always uses `CHUNK_SIZE = 50`. -/
def batches {α : Type} (n : ℕ) (xs : List α) : List (List α) :=
  if _h : xs.length = 0 ∨ n = 0 then []
  else xs.take n :: batches n (xs.drop n)
termination_by xs.length
decreasing_by
  push_neg at _h
  simp only [List.length_drop]
  omega

/-- The full-title composition of ai.py:1243-1254. -/
def fullTitleOf (sectionName title : String) : String :=
  if sectionName ≠ "" ∧ title ≠ "" ∧ ¬ title.startsWith sectionName then
    sectionName ++ " - " ++ title
  else if title ≠ "" then title else sectionName

/-- One item of the batch loop body (ai.py:1264-1326): call `analyze_chunk`
on the item's question and merge the result into the item's fields. -/
def processItem (answer : String → AnalysisResult) (item : ChecklistItem) :
    ProcessedItem :=
  { id := item.id, question := item.question, reference := item.reference,
    result := answer item.question }

/-- Embedding of `AIService._process_section` (ai.py:1230-1331): process the
items batch by batch and collect one processed item per checklist item. -/
def processSection (answer : String → AnalysisResult) (sec : ChecklistSection) :
    ProcessedSection :=
  { sectionName := sec.sectionName,
    title := fullTitleOf sec.sectionName sec.title,
    items := ((batches CHUNK_SIZE sec.items).map
      (fun batch => batch.map (processItem answer))).flatten }

/-- One standard's sections processed by the per-section gather of the
standard/zap dispatch (analysis_routes.py:2940-2950 and 2651-2726: each
section task returns `_process_section`'s result). -/
def processStandardSections (answer : String → AnalysisResult)
    (sections : List ChecklistSection) : List ProcessedSection :=
  sections.map (processSection answer)

/-- The number of questions in a checklist (its items across sections). -/
def totalChecklistQuestions (sections : List ChecklistSection) : ℕ :=
  (sections.map (fun s => s.items.length)).sum

/-- The number of per-question result entries across processed sections
(what the zap-mode completion counter sums, analysis_routes.py:2738-2740). -/
def totalResultItems (out : List ProcessedSection) : ℕ :=
  (out.map (fun s => s.items.length)).sum

/-! ### The orchestrator (analysis_routes.py:2845-3196)

`_process_standards_sequentially` iterates the caller-supplied standards
in order; the whole per-standard body (checklist load, progress-tracker
bookkeeping, mode dispatch) sits in one `try` whose `except` appends a
`{standard, error}` record and continues.  The body is an outcome oracle:
`StandardOutcome.ok` carries the processed sections the dispatch returned,
`StandardOutcome.err` the message of the exception raised. -/

/-- The outcome of one standard's body (analysis_routes.py:2875-2978). -/
inductive StandardOutcome
  | ok (sections : List ProcessedSection)
  | err (msg : String)

/-- A processed section tagged with its standard
(`section["standard"] = standard`, analysis_routes.py:2952-2954). -/
structure TaggedSection where
  base : ProcessedSection
  standard : String
deriving Repr, DecidableEq

/-- A `failed_standards` entry (analysis_routes.py:2983). -/
structure FailedStandard where
  standard : String
  error : String
deriving Repr, DecidableEq

/-- Tag each of a standard's sections with the standard id
(analysis_routes.py:2952-2954). -/
def tagSections (standard : String) (secs : List ProcessedSection) :
    List TaggedSection :=
  secs.map (fun s => ⟨s, standard⟩)

/-- Embedding of the loop of `_process_standards_sequentially`
(analysis_routes.py:2874-2989): returns `(all_sections, failed_standards)`. -/
def processStandardsSequentially (outcome : String → StandardOutcome) :
    List String → List TaggedSection × List FailedStandard
  | [] => ([], [])
  | s :: rest =>
    match outcome s with
    | .ok raw =>
      let r := processStandardsSequentially outcome rest
      (tagSections s raw ++ r.1, r.2)
    | .err e =>
      let r := processStandardsSequentially outcome rest
      (r.1, ⟨s, e⟩ :: r.2)

/-- The run statuses of the persisted record (§3 of the spec). -/
inductive RunStatus
  | PROCESSING
  | COMPLETED
  | COMPLETED_WITH_ERRORS
  | FAILED
deriving Repr, DecidableEq

/-- Embedding of the status decision of `_handle_analysis_completion`
(analysis_routes.py:3007-3044). -/
def handleAnalysisCompletion (standards : List String)
    (failedStandards : List FailedStandard) : RunStatus :=
  if failedStandards.length = standards.length then RunStatus.FAILED
  else if 0 < failedStandards.length then RunStatus.COMPLETED_WITH_ERRORS
  else RunStatus.COMPLETED

/-- Embedding of `process_compliance_analysis`
(analysis_routes.py:3104-3196) restricted to what the claims mention: an
empty standards list raises `ValueError` (analysis_routes.py:3133-3135)
which the handler turns into a `FAILED` record; otherwise the standards are
processed sequentially and the completion handler picks the final status,
which is then persisted (analysis_routes.py:3182). -/
def processComplianceAnalysis (outcome : String → StandardOutcome)
    (standards : List String) :
    RunStatus × List TaggedSection × List FailedStandard :=
  if standards = [] then (RunStatus.FAILED, [], [])
  else
    let r := processStandardsSequentially outcome standards
    (handleAnalysisCompletion standards r.2, r.1, r.2)

/-- Whether a standard's outcome was a failure. -/
def outcomeFailed : StandardOutcome → Bool
  | .ok _ => false
  | .err _ => true

/-- A concrete outcome oracle for the C1 witness: `IAS_1` succeeds,
everything else fails to load its checklist. -/
def claim1Outcome : String → StandardOutcome :=
  fun s => if s = "IAS_1" then StandardOutcome.ok []
    else StandardOutcome.err "checklist load failed"

/-! ### `ProgressTracker` (progress_tracker.py)

The tracker's in-memory registry `_active_analyses` and the on-disk
progress files are a `TrackerState`; `_save_progress` writes the document's
record to `disk`.  Every mutator follows the source's guard pattern: a
document id with no active analysis, or a standard/question id not in the
tree, leaves both components untouched. -/

/-- `QuestionProgress` (progress_tracker.py:17-28). -/
structure QuestionProgress where
  questionId : String
  sectionName : String
  questionText : String
  status : String := "pending"
  completedAt : Option ℚ := none
deriving Repr, DecidableEq

/-- `StandardProgress` (progress_tracker.py:31-69). -/
structure StandardProgress where
  standardId : String
  standardName : String
  totalQuestions : ℕ := 0
  completedQuestions : ℕ := 0
  currentQuestion : Option String := none
  status : String := "pending"
  startTime : Option ℚ := none
  endTime : Option ℚ := none
  questionsProgress : List (String × QuestionProgress) := []
deriving Repr, DecidableEq

/-- `AnalysisProgress` (progress_tracker.py:72-129). -/
structure AnalysisProgress where
  documentId : String
  framework : String
  totalStandards : ℕ
  completedStandards : ℕ
  currentStandard : Option String := none
  standardsProgress : List (String × StandardProgress) := []
  overallStartTime : Option ℚ := none
  overallEndTime : Option ℚ := none
  status : String := "pending"
  processingMode : String := "smart"
deriving Repr, DecidableEq

/-- The tracker's observable state: the in-memory `_active_analyses`
registry and the persisted per-document progress records. -/
structure TrackerState where
  active : List (String × AnalysisProgress)
  disk : List (String × AnalysisProgress)
deriving Repr, DecidableEq

/-- `_save_progress` (progress_tracker.py:417-424): overwrite the
document's persisted record. -/
def saveProgress (d : String) (p : AnalysisProgress) (st : TrackerState) :
    TrackerState :=
  { st with disk := ainsert d p st.disk }

/-- `start_analysis` (progress_tracker.py:140-175). -/
def startAnalysis (now : ℚ) (d fw : String) (standards : List String)
    (mode : String) (st : TrackerState) : TrackerState :=
  let sp := standards.foldl (fun acc s =>
    ainsert s ({ standardId := s, standardName := s } : StandardProgress) acc) []
  let p : AnalysisProgress :=
    { documentId := d, framework := fw, totalStandards := standards.length,
      completedStandards := 0, standardsProgress := sp,
      overallStartTime := some now, status := "processing",
      processingMode := mode }
  saveProgress d p { st with active := ainsert d p st.active }

/-- `start_standard` (progress_tracker.py:177-201). -/
def startStandard (now : ℚ) (d s : String) (total : ℕ) (st : TrackerState) :
    TrackerState :=
  match alookup d st.active with
  | none => st
  | some p =>
    match alookup s p.standardsProgress with
    | none => st
    | some sp =>
      let sp' := { sp with
        status := "processing"
        startTime := some now
        totalQuestions := total
        completedQuestions := 0 }
      let p' := { p with
        standardsProgress := ainsert s sp' p.standardsProgress
        currentStandard := some s }
      saveProgress d p' { st with active := ainsert d p' st.active }

/-- One entry of the `questions_data` list handed to `initialize_questions`
(analysis_routes.py:2894-2906): the dict's `.get` results. -/
structure QuestionData where
  id : Option String := none
  sectionName : Option String := none
  question : Option String := none
deriving Repr, DecidableEq

/-- `initialize_questions` (progress_tracker.py:203-241): pre-populate
pending entries, skipping entries with a falsy id. -/
def initializeQuestions (d s : String) (qs : List QuestionData)
    (st : TrackerState) : TrackerState :=
  match alookup d st.active with
  | none => st
  | some p =>
    match alookup s p.standardsProgress with
    | none => st
    | some sp =>
      let qps := qs.foldl (fun acc qd =>
        match qd.id with
        | none => acc
        | some qid =>
          if qid = "" then acc
          else ainsert qid
            { questionId := qid, sectionName := qd.sectionName.getD s,
              questionText := qd.question.getD "", status := "pending" } acc)
        sp.questionsProgress
      let sp' := { sp with questionsProgress := qps }
      let p' := { p with standardsProgress := ainsert s sp' p.standardsProgress }
      saveProgress d p' { st with active := ainsert d p' st.active }

/-- `mark_question_processing` (progress_tracker.py:243-267). -/
def markQuestionProcessing (d s q : String) (st : TrackerState) : TrackerState :=
  match alookup d st.active with
  | none => st
  | some p =>
    match alookup s p.standardsProgress with
    | none => st
    | some sp =>
      match alookup q sp.questionsProgress with
      | none => st
      | some qp =>
        let qp' := { qp with status := "processing" }
        let sp' := { sp with questionsProgress := ainsert q qp' sp.questionsProgress }
        let p' := { p with standardsProgress := ainsert s sp' p.standardsProgress }
        saveProgress d p' { st with active := ainsert d p' st.active }

/-- The recount of `mark_question_completed` (progress_tracker.py:294-300):
the number of question entries whose status is `"completed"`. -/
def countCompleted (qps : List (String × QuestionProgress)) : ℕ :=
  (qps.filter (fun e => e.2.status = "completed")).length

/-- `mark_question_completed` (progress_tracker.py:269-305): set the
question's status, then recompute the standard's `completed_questions`
from the live set of question states. -/
def markQuestionCompleted (now : ℚ) (d s q : String) (st : TrackerState) :
    TrackerState :=
  match alookup d st.active with
  | none => st
  | some p =>
    match alookup s p.standardsProgress with
    | none => st
    | some sp =>
      match alookup q sp.questionsProgress with
      | none => st
      | some qp =>
        let qp' := { qp with status := "completed", completedAt := some now }
        let qps' := ainsert q qp' sp.questionsProgress
        let sp' := { sp with
          questionsProgress := qps'
          completedQuestions := countCompleted qps' }
        let p' := { p with standardsProgress := ainsert s sp' p.standardsProgress }
        saveProgress d p' { st with active := ainsert d p' st.active }

/-- `mark_question_failed` (progress_tracker.py:307-331). -/
def markQuestionFailed (d s q : String) (st : TrackerState) : TrackerState :=
  match alookup d st.active with
  | none => st
  | some p =>
    match alookup s p.standardsProgress with
    | none => st
    | some sp =>
      match alookup q sp.questionsProgress with
      | none => st
      | some qp =>
        let qp' := { qp with status := "failed" }
        let sp' := { sp with questionsProgress := ainsert q qp' sp.questionsProgress }
        let p' := { p with standardsProgress := ainsert s sp' p.standardsProgress }
        saveProgress d p' { st with active := ainsert d p' st.active }

/-- `update_question_progress` (progress_tracker.py:333-354): set the
current question and assign the caller-supplied completed count. -/
def updateQuestionProgress (d s cur : String) (cnt : ℕ) (st : TrackerState) :
    TrackerState :=
  match alookup d st.active with
  | none => st
  | some p =>
    match alookup s p.standardsProgress with
    | none => st
    | some sp =>
      let sp' := { sp with currentQuestion := some cur, completedQuestions := cnt }
      let p' := { p with standardsProgress := ainsert s sp' p.standardsProgress }
      saveProgress d p' { st with active := ainsert d p' st.active }

/-- `complete_standard` (progress_tracker.py:356-381): mark the standard
terminal, increment `completed_standards`, and mark the whole analysis
completed when the counter reaches the total. -/
def completeStandard (now : ℚ) (d s : String) (st : TrackerState) :
    TrackerState :=
  match alookup d st.active with
  | none => st
  | some p =>
    match alookup s p.standardsProgress with
    | none => st
    | some sp =>
      let sp' := { sp with
        status := "completed"
        endTime := some now
        currentQuestion := none }
      let p1 := { p with
        standardsProgress := ainsert s sp' p.standardsProgress
        completedStandards := p.completedStandards + 1 }
      let p' := if p1.totalStandards ≤ p1.completedStandards then
          { p1 with
            status := "completed"
            overallEndTime := some now
            currentStandard := none }
        else p1
      saveProgress d p' { st with active := ainsert d p' st.active }

/-- `fail_analysis` (progress_tracker.py:383-394). -/
def failAnalysis (now : ℚ) (d _msg : String) (st : TrackerState) : TrackerState :=
  match alookup d st.active with
  | none => st
  | some p =>
    let p' := { p with status := "failed", overallEndTime := some now }
    saveProgress d p' { st with active := ainsert d p' st.active }

/-- `cleanup_analysis` (progress_tracker.py:405-415): drop the in-memory
entry and delete the persisted record, only when the document is active. -/
def cleanupAnalysis (d : String) (st : TrackerState) : TrackerState :=
  match alookup d st.active with
  | none => st
  | some _ => { active := aremove d st.active, disk := aremove d st.disk }

/-! ### Claim C9: monotonicity of progress counters -/

/-- The operations the claim quantifies over. -/
inductive TrackOp
  | markCompleted (now : ℚ) (d s q : String)
  | updateProgress (d s cur : String) (cnt : ℕ)
  | completeStd (now : ℚ) (d s : String)

/-- Apply one tracker operation. -/
def applyOp (st : TrackerState) : TrackOp → TrackerState
  | .markCompleted now d s q => markQuestionCompleted now d s q st
  | .updateProgress d s cur cnt => updateQuestionProgress d s cur cnt st
  | .completeStd now d s => completeStandard now d s st

/-- Apply a sequence of tracker operations in order. -/
def applyOps (st : TrackerState) (ops : List TrackOp) : TrackerState :=
  ops.foldl applyOp st

/-- The tracked `completed_standards` count of a document (0 when the
document has no active analysis). -/
def completedStandardsOf (st : TrackerState) (d : String) : ℕ :=
  match alookup d st.active with
  | none => 0
  | some p => p.completedStandards

/-- The tracked `completed_questions` count of a standard (0 when absent). -/
def completedQuestionsOf (st : TrackerState) (d s : String) : ℕ :=
  match alookup d st.active with
  | none => 0
  | some p =>
    match alookup s p.standardsProgress with
    | none => 0
    | some sp => sp.completedQuestions

/-- A concrete tracker state for the C9 counterexample: one active document
with one registered standard of 5 questions. -/
def claim9State : TrackerState :=
  { active := [("doc1",
      { documentId := "doc1", framework := "IFRS", totalStandards := 1,
        completedStandards := 0,
        standardsProgress := [("IAS_1",
          { standardId := "IAS_1", standardName := "IAS_1",
            totalQuestions := 5 })] })],
    disk := [] }

/-- The operations under which the question counter is monotone: the claim's
set minus `update_question_progress`. -/
def opRecountBased : TrackOp → Bool
  | .updateProgress _ _ _ _ => false
  | _ => true

/-- Counter consistency: every registered standard's `completed_questions`
equals the recount over its live question states (what
`mark_question_completed` re-establishes on every call). -/
def Consistent (st : TrackerState) : Prop :=
  ∀ d p, alookup d st.active = some p →
    ∀ s sp, alookup s p.standardsProgress = some sp →
      sp.completedQuestions = countCompleted sp.questionsProgress

theorem alookup_ainsert_self {α : Type} (k : String) (v : α) (m : List (String × α)) :
    alookup k (ainsert k v m) = some v := by
  induction m with
  | nil => simp [ainsert, alookup]
  | cons hd tl ih =>
    obtain ⟨k', v'⟩ := hd
    by_cases h : k' = k
    · simp [ainsert, alookup, h]
    · simp [ainsert, alookup, h, ih]

theorem alookup_ainsert_ne {α : Type} {k k' : String} (hne : k' ≠ k) (v : α)
    (m : List (String × α)) : alookup k' (ainsert k v m) = alookup k' m := by
  have hkk : k ≠ k' := fun h => hne h.symm
  induction m with
  | nil => simp [ainsert, alookup, hkk]
  | cons hd tl ih =>
    obtain ⟨k₀, v₀⟩ := hd
    by_cases h : k₀ = k
    · subst h
      simp [ainsert, alookup, hkk]
    · simp only [ainsert, if_neg h]
      by_cases h' : k₀ = k'
      · simp [alookup, h']
      · simp [alookup, h', ih]

/-! ### Claims C5 and C6 -/

/-- C5 (counterexample): the claim says that after the breaker opens, "after
a 5-minute clock advance, the next admission is permitted".  The code
reopens only when strictly more than 300 seconds have passed
(`time_since_opened > 300`, ai.py:109): with the breaker opened at time 0,
the admission check at time exactly 300 (a 5-minute clock advance) is still
rejected, and the failure counter is not reset. -/
theorem claim5_counterexample :
    checkCircuitBreaker 0 ⟨10, false, 0⟩ = Except.error ⟨10, true, 0⟩
    ∧ checkCircuitBreaker 300 ⟨10, true, 0⟩ = Except.error ⟨10, true, 0⟩ := by
  refine ⟨rfl, ?_⟩
  have h : ¬ ((300 : ℚ) - 0 > 300) := by norm_num
  simp [checkCircuitBreaker, h]

/-- C5 (amended): once the consecutive-failure counter reaches 10, the next
admission check raises `CircuitBreakerOpen` immediately with the breaker now
open; every admission while at most 5 minutes have passed since the breaker
opened is likewise rejected; and the first admission strictly more than 5
minutes after the breaker opened is permitted, with the failure counter
reset to 0 and the breaker closed. -/
theorem claim5_circuit_breaker_round_trip (st : CircuitState) (now : ℚ) :
    (st.breakerOpen = false → CIRCUIT_BREAKER_THRESHOLD ≤ st.consecutiveFailures →
      checkCircuitBreaker now st =
        Except.error { st with breakerOpen := true, openedAt := now })
    ∧ (st.breakerOpen = true → now - st.openedAt ≤ 300 →
      checkCircuitBreaker now st = Except.error st)
    ∧ (st.breakerOpen = true → 300 < now - st.openedAt →
      checkCircuitBreaker now st =
        Except.ok { st with breakerOpen := false, consecutiveFailures := 0 }) := by
  refine ⟨fun hopen hf => ?_, fun hopen ht => ?_, fun hopen ht => ?_⟩
  · simp [checkCircuitBreaker, hopen, CIRCUIT_BREAKER_THRESHOLD] at hf ⊢
    omega
  · have h : ¬ (now - st.openedAt > 300) := not_lt.mpr ht
    simp [checkCircuitBreaker, hopen, h]
  · simp [checkCircuitBreaker, hopen, ht, CIRCUIT_BREAKER_THRESHOLD]

/-- C5 round trip at a concrete input: with 10 consecutive failures the
check at time 0 rejects and opens the breaker; at time 250 (within the
cooldown) it rejects; at time 301 (strictly past the cooldown) it admits
and resets the failure counter to 0. -/
theorem claim5_circuit_breaker_round_trip_witness :
    checkCircuitBreaker 0 ⟨10, false, 0⟩ = Except.error ⟨10, true, 0⟩
    ∧ checkCircuitBreaker 250 ⟨10, true, 0⟩ = Except.error ⟨10, true, 0⟩
    ∧ checkCircuitBreaker 301 ⟨10, true, 0⟩ = Except.ok ⟨0, false, 0⟩ := by
  refine ⟨?_, ?_, ?_⟩
  · exact (claim5_circuit_breaker_round_trip ⟨10, false, 0⟩ 0).1 rfl
      (by norm_num [CIRCUIT_BREAKER_THRESHOLD])
  · exact (claim5_circuit_breaker_round_trip ⟨10, true, 0⟩ 250).2.1 rfl (by norm_num)
  · exact (claim5_circuit_breaker_round_trip ⟨10, true, 0⟩ 301).2.2 rfl (by norm_num)

/-! ### Claim C6: duplicate suppression is per-document and resettable -/

/-- C6: for a document `d` and question `q` whose hash is not yet recorded
for `d`, two successive `check_duplicate_question` calls return
`(false, true)`; after the orchestrator's run-start step clears `d`'s
processed-question set (`process_compliance_analysis`,
analysis_routes.py:3120-3124), the next call for `(d, q)` returns `false`
again. -/
theorem claim6_duplicate_suppression (h : String → Int) (m : DupMap) (d q : String)
    (hfresh : h q ∉ (alookup d m).getD []) :
    (checkDuplicateQuestion h q d m).1 = false
    ∧ (checkDuplicateQuestion h q d (checkDuplicateQuestion h q d m).2).1 = true
    ∧ (checkDuplicateQuestion h q d
        (processComplianceStartClear d
          (checkDuplicateQuestion h q d (checkDuplicateQuestion h q d m).2).2)).1
      = false := by
  have h1 : checkDuplicateQuestion h q d m
      = (false, ainsert d (h q :: (alookup d m).getD []) m) := by
    simp [checkDuplicateQuestion, hfresh]
  have h2 : checkDuplicateQuestion h q d (checkDuplicateQuestion h q d m).2
      = (true, ainsert d (h q :: (alookup d m).getD [])
          (checkDuplicateQuestion h q d m).2) := by
    rw [h1]
    simp [checkDuplicateQuestion, alookup_ainsert_self]
  have h3 : processComplianceStartClear d
      (checkDuplicateQuestion h q d (checkDuplicateQuestion h q d m).2).2
      = ainsert d []
          (checkDuplicateQuestion h q d (checkDuplicateQuestion h q d m).2).2 := by
    rw [h2]
    simp [processComplianceStartClear, clearDocumentQuestions, alookup_ainsert_self]
  refine ⟨by rw [h1], by rw [h2], ?_⟩
  rw [h3]
  simp [checkDuplicateQuestion, alookup_ainsert_self]

/-- C6 at a concrete input: document `"doc1"`, question `"q1"`, a constant
hash oracle and an empty processed-question state. -/
theorem claim6_duplicate_suppression_witness :
    (checkDuplicateQuestion (fun _ => 0) "q1" "doc1" []).1 = false
    ∧ (checkDuplicateQuestion (fun _ => 0) "q1" "doc1"
        (checkDuplicateQuestion (fun _ => 0) "q1" "doc1" []).2).1 = true
    ∧ (checkDuplicateQuestion (fun _ => 0) "q1" "doc1"
        (processComplianceStartClear "doc1"
          (checkDuplicateQuestion (fun _ => 0) "q1" "doc1"
            (checkDuplicateQuestion (fun _ => 0) "q1" "doc1" []).2).2)).1
      = false :=
  claim6_duplicate_suppression (fun _ => 0) [] "doc1" "q1" (by simp [alookup])

theorem callsPrecededBy_of_seen (marker : Event) :
    ∀ es : List Event, callsPrecededBy marker es true = true := by
  intro es
  induction es with
  | nil => rfl
  | cons e es ih =>
    by_cases h : e = Event.modelCall <;> simp [callsPrecededBy, h, ih]

theorem apiRetryLoop_events_modelCall (api : ℕ → ApiOutcome) :
    ∀ (fuel attempt : ℕ) (st : CircuitState) (e : Event),
      e ∈ (apiRetryLoop api fuel attempt st).2.2 → e = Event.modelCall := by
  intro fuel
  induction fuel with
  | zero => intro attempt st e h; simp [apiRetryLoop] at h
  | succ n ih =>
    intro attempt st e h
    rcases hapi : api attempt with c | _ | msg | msg <;>
      simp only [apiRetryLoop, hapi] at h
    · simpa using h
    · by_cases hretry : attempt < MAX_API_RETRIES - 1
      · simp only [if_pos hretry, List.mem_cons] at h
        rcases h with h | h
        · exact h
        · exact ih (attempt + 1) (recordFailure st) e h
      · simp only [if_neg hretry] at h
        simpa using h
    · by_cases hretry : attempt < MAX_API_RETRIES - 1
      · simp only [if_pos hretry, List.mem_cons] at h
        rcases h with h | h
        · exact h
        · exact ih (attempt + 1) (recordFailure st) e h
      · simp only [if_neg hretry] at h
        simpa using h
    · simpa using h

theorem apiRetryLoop_early_status (api : ℕ → ApiOutcome) :
    ∀ (fuel attempt : ℕ) (st : CircuitState) (r : AnalysisResult),
      (apiRetryLoop api fuel attempt st).1 = LoopOutcome.early r →
      r.status = "N/A" := by
  intro fuel
  induction fuel with
  | zero =>
    intro attempt st r h
    simp [apiRetryLoop] at h
    rw [← h]; rfl
  | succ n ih =>
    intro attempt st r h
    rcases hapi : api attempt with c | _ | msg | msg <;>
      simp only [apiRetryLoop, hapi] at h
    · simp at h
    · by_cases hretry : attempt < MAX_API_RETRIES - 1
      · simp only [if_pos hretry] at h
        exact ih (attempt + 1) (recordFailure st) r h
      · simp only [if_neg hretry, LoopOutcome.early.injEq] at h
        rw [← h]; rfl
    · by_cases hretry : attempt < MAX_API_RETRIES - 1
      · simp only [if_pos hretry] at h
        exact ih (attempt + 1) (recordFailure st) r h
      · simp only [if_neg hretry, LoopOutcome.early.injEq] at h
        rw [← h]; rfl
    · simp only [LoopOutcome.early.injEq] at h
      rw [← h]; rfl

theorem annotatePages_status (chunks : List RChunk) (r : AnalysisResult) :
    (annotatePages chunks r).status = r.status := by
  unfold annotatePages
  split <;> try rfl
  split <;> rfl

theorem annotatePages_confidence (chunks : List RChunk) (r : AnalysisResult) :
    (annotatePages chunks r).confidence = r.confidence := by
  unfold annotatePages
  split <;> try rfl
  split <;> rfl

theorem annotatePages_evidence (chunks : List RChunk) (r : AnalysisResult) :
    (annotatePages chunks r).evidence = r.evidence := by
  unfold annotatePages
  split <;> try rfl
  split <;> rfl

theorem validateResult_status (r : RawResult) :
    (validateResult r).status = "YES" ∨ (validateResult r).status = "NO"
    ∨ (validateResult r).status = "N/A" := by
  unfold validateResult
  rcases r.status with _ | s
  · right; right; rfl
  · simp only []
    by_cases h : s = "YES" ∨ s = "NO" ∨ s = "N/A"
    · rcases h with h | h | h <;> simp [h]
    · simp [h]

/-- Every trace `analyze_chunk` produces is an early-return prefix, or the
duplicate check followed by the circuit-breaker check followed by
completion-API calls only. -/
theorem analyzeChunk_events_shape (env : ChunkEnv) (st : AiGlobalState) :
    (analyzeChunk env st).2.2 = []
    ∨ (analyzeChunk env st).2.2 = [Event.dupCheck]
    ∨ (analyzeChunk env st).2.2 = [Event.dupCheck, Event.circuitCheck]
    ∨ ∃ evs, (analyzeChunk env st).2.2 = Event.dupCheck :: Event.circuitCheck :: evs
        ∧ ∀ e ∈ evs, e = Event.modelCall := by
  rcases hdoc : env.currentDocumentId with _ | docId
  · left; simp [analyzeChunk, hdoc]
  · by_cases hempty : docId = ""
    · left; simp [analyzeChunk, hdoc, hempty]
    · rcases hdup : (checkDuplicateQuestion env.questionHash env.question docId
          st.processedQuestions).1 with _ | _
      · rcases hcb : checkCircuitBreaker env.now st.circuit with cb | cb
        · right; right; left
          simp [analyzeChunk, hdoc, hempty, hdup, hcb]
        · by_cases hvs : env.vectorStoreReady = false
          · right; right; left
            simp [analyzeChunk, hdoc, hempty, hdup, hcb, hvs]
          · by_cases hchunks : env.relevantChunks = []
            · by_cases hcond : env.chunk ≠ "" ∧ 1000 < env.chunk.length
                  ∧ env.standardId.getD "" ≠ ""
              · rcases henh : env.enhancedOutcome with _ | e
                · right; right; left
                  simp [analyzeChunk, hdoc, hempty, hdup, hcb, hvs, hchunks,
                    hcond, henh]
                · right; right; right
                  refine ⟨(apiRetryLoop env.api MAX_API_RETRIES 0 cb).2.2, ?_,
                    fun e' he => apiRetryLoop_events_modelCall env.api _ _ _ e' he⟩
                  simp [analyzeChunk, hdoc, hempty, hdup, hcb, hvs, hchunks,
                    hcond, henh]
              · right; right; left
                simp [analyzeChunk, hdoc, hempty, hdup, hcb, hvs, hchunks, hcond]
            · right; right; right
              refine ⟨(apiRetryLoop env.api MAX_API_RETRIES 0 cb).2.2, ?_,
                fun e' he => apiRetryLoop_events_modelCall env.api _ _ _ e' he⟩
              simp [analyzeChunk, hdoc, hempty, hdup, hcb, hvs, hchunks]
      · right; left
        simp [analyzeChunk, hdoc, hempty, hdup]

/-- The result of every `analyze_chunk` run is one of: a degraded result
with status `"N/A"`, the validated-and-annotated parse of a model response,
the missing-document-id error result, or the None-content error result. -/
theorem analyzeChunk_result_classes (env : ChunkEnv) (st : AiGlobalState) :
    (analyzeChunk env st).1.status = "N/A"
    ∨ (∃ r, (analyzeChunk env st).1
        = annotatePages env.relevantChunks (validateResult r))
    ∨ (analyzeChunk env st).1 = noDocumentIdResult
    ∨ (analyzeChunk env st).1 = noneContentResult := by
  rcases hdoc : env.currentDocumentId with _ | docId
  · right; right; left; simp [analyzeChunk, hdoc]
  · by_cases hempty : docId = ""
    · right; right; left; simp [analyzeChunk, hdoc, hempty]
    · rcases hdup : (checkDuplicateQuestion env.questionHash env.question docId
          st.processedQuestions).1 with _ | _
      · rcases hcb : checkCircuitBreaker env.now st.circuit with cb | cb
        · left; simp [analyzeChunk, hdoc, hempty, hdup, hcb, duplicateResult,
            circuitOpenResult]
        · by_cases hvs : env.vectorStoreReady = false
          · left; simp [analyzeChunk, hdoc, hempty, hdup, hcb, hvs,
              vectorStoreFailureResult]
          · have hloopcases : ∀ (cb' : CircuitState),
                (match (apiRetryLoop env.api MAX_API_RETRIES 0 cb').1 with
                  | LoopOutcome.early r => r
                  | LoopOutcome.gotContent none => noneContentResult
                  | LoopOutcome.gotContent (some c) =>
                    annotatePages env.relevantChunks
                      (validateResult
                        (match c.parse with
                          | ParseOutcome.jsonOk r => r
                          | ParseOutcome.jsonFail f => extractFallback f))).status
                    = "N/A"
                ∨ (∃ r, (match (apiRetryLoop env.api MAX_API_RETRIES 0 cb').1 with
                    | LoopOutcome.early r => r
                    | LoopOutcome.gotContent none => noneContentResult
                    | LoopOutcome.gotContent (some c) =>
                      annotatePages env.relevantChunks
                        (validateResult
                          (match c.parse with
                            | ParseOutcome.jsonOk r => r
                            | ParseOutcome.jsonFail f => extractFallback f)))
                      = annotatePages env.relevantChunks (validateResult r))
                ∨ (match (apiRetryLoop env.api MAX_API_RETRIES 0 cb').1 with
                    | LoopOutcome.early r => r
                    | LoopOutcome.gotContent none => noneContentResult
                    | LoopOutcome.gotContent (some c) =>
                      annotatePages env.relevantChunks
                        (validateResult
                          (match c.parse with
                            | ParseOutcome.jsonOk r => r
                            | ParseOutcome.jsonFail f => extractFallback f)))
                      = noneContentResult := by
              intro cb'
              rcases hloop : (apiRetryLoop env.api MAX_API_RETRIES 0 cb').1
                with r | c
              · left
                simp only [hloop]
                exact apiRetryLoop_early_status env.api _ _ _ r hloop
              · rcases c with _ | c
                · right; right; simp [hloop]
                · right; left
                  refine ⟨match c.parse with
                    | .jsonOk r => r
                    | .jsonFail f => extractFallback f, ?_⟩
                  simp [hloop]
            by_cases hchunks : env.relevantChunks = []
            · by_cases hcond : env.chunk ≠ "" ∧ 1000 < env.chunk.length
                  ∧ env.standardId.getD "" ≠ ""
              · rcases henh : env.enhancedOutcome with _ | e
                · left
                  simp [analyzeChunk, hdoc, hempty, hdup, hcb, hvs, hchunks,
                    hcond, henh, noEvidenceShortCircuitResult]
                · rcases hloopcases cb with h | h | h
                  · left
                    simpa [analyzeChunk, hdoc, hempty, hdup, hcb, hvs, hchunks,
                      hcond, henh] using h
                  · right; left
                    simpa [analyzeChunk, hdoc, hempty, hdup, hcb, hvs, hchunks,
                      hcond, henh] using h
                  · right; right; right
                    simpa [analyzeChunk, hdoc, hempty, hdup, hcb, hvs, hchunks,
                      hcond, henh] using h
              · left
                simp [analyzeChunk, hdoc, hempty, hdup, hcb, hvs, hchunks,
                  hcond, noEvidenceShortCircuitResult]
            · rcases hloopcases cb with h | h | h
              · left
                simpa [analyzeChunk, hdoc, hempty, hdup, hcb, hvs, hchunks]
                  using h
              · right; left
                simpa [analyzeChunk, hdoc, hempty, hdup, hcb, hvs, hchunks]
                  using h
              · right; right; right
                simpa [analyzeChunk, hdoc, hempty, hdup, hcb, hvs, hchunks]
                  using h
      · left
        simp [analyzeChunk, hdoc, hempty, hdup, duplicateResult]

/-- C4 (counterexample): the claim says every model call in `analyze_chunk`
is admitted through `check_rate_limit_with_backoff` first.  It is not: the
admission call is commented out (ai.py:593-594, "RATE LIMITING REMOVED"),
so on this concrete run a completion-API call is issued with no
rate-governor admission event anywhere before it in the trace. -/
theorem claim4_counterexample :
    Event.modelCall ∈ (analyzeChunk claim4Env claim4State).2.2
    ∧ callsPrecededBy Event.rateAdmit
        (analyzeChunk claim4Env claim4State).2.2 false = false := by
  decide

/-- C4 (amended): before any completion-API call, `analyze_chunk` performs
the duplicate-question check and the circuit-breaker check (every
`modelCall` event is preceded by a `circuitCheck` event), but it performs
no rate-governor admission at all: no trace it produces contains a
`rateAdmit` event, because the `check_rate_limit_with_backoff` call on the
model path is commented out (ai.py:593-594). -/
theorem claim4_circuit_check_but_no_admission (env : ChunkEnv) (st : AiGlobalState) :
    callsPrecededBy Event.circuitCheck (analyzeChunk env st).2.2 false = true
    ∧ Event.rateAdmit ∉ (analyzeChunk env st).2.2 := by
  rcases analyzeChunk_events_shape env st with h | h | h | ⟨evs, h, hall⟩ <;> rw [h]
  · exact ⟨rfl, by simp⟩
  · exact ⟨rfl, by decide⟩
  · exact ⟨rfl, by decide⟩
  · constructor
    · show callsPrecededBy Event.circuitCheck evs true = true
      exact callsPrecededBy_of_seen Event.circuitCheck evs
    · simp only [List.mem_cons]
      rintro (h' | h' | hmem)
      · exact absurd h' (by decide)
      · exact absurd h' (by decide)
      · exact absurd (hall _ hmem) (by decide)

/-- C7 (counterexample): the claim says no returned result carries a status
outside {YES, NO, N/A}.  When no document id is set, `analyze_chunk`
returns the ai.py:484-490 record whose status is `"Error"` (the same
happens when the model returns `None` content, ai.py:696-706). -/
theorem claim7_counterexample :
    (analyzeChunk claim7Env claim7State).1.status = "Error"
    ∧ ¬ ((analyzeChunk claim7Env claim7State).1.status = "YES"
      ∨ (analyzeChunk claim7Env claim7State).1.status = "NO"
      ∨ (analyzeChunk claim7Env claim7State).1.status = "N/A") := by
  decide

/-- C7 (amended): every result `analyze_chunk` returns has status in
{YES, NO, N/A, Error}; status `"Error"` occurs only on the
missing-document-id path and the None-model-content path; and the
validate-and-clean step normalizes a parsed model response exactly as the
claim states — status clamped to {YES, NO, N/A} (default `N/A`),
confidence defaulting to 0.5 when absent, degenerate evidence replaced by
the placeholder entry. -/
theorem claim7_result_normalization (env : ChunkEnv) (st : AiGlobalState)
    (r : RawResult) :
    ((analyzeChunk env st).1.status = "YES" ∨ (analyzeChunk env st).1.status = "NO"
      ∨ (analyzeChunk env st).1.status = "N/A"
      ∨ (analyzeChunk env st).1.status = "Error")
    ∧ ((analyzeChunk env st).1.status = "Error" →
        (analyzeChunk env st).1 = noDocumentIdResult
        ∨ (analyzeChunk env st).1 = noneContentResult)
    ∧ ((validateResult r).status = "YES" ∨ (validateResult r).status = "NO"
      ∨ (validateResult r).status = "N/A")
    ∧ (r.confidence = none → (validateResult r).confidence = 1 / 2)
    ∧ (evidenceDegenerate (r.evidence.getD (.strE "")) = true →
        (validateResult r).evidence = noEvidencePlaceholder) := by
  refine ⟨?_, ?_, validateResult_status r, ?_, ?_⟩
  · rcases analyzeChunk_result_classes env st with h | ⟨r', h⟩ | h | h
    · right; right; left; exact h
    · rw [h, annotatePages_status]
      rcases validateResult_status r' with h' | h' | h'
      · left; exact h'
      · right; left; exact h'
      · right; right; left; exact h'
    · right; right; right; rw [h]; rfl
    · right; right; right; rw [h]; rfl
  · intro herr
    rcases analyzeChunk_result_classes env st with h | ⟨r', h⟩ | h | h
    · rw [herr] at h; exact absurd h (by decide)
    · rw [h, annotatePages_status] at herr
      rcases validateResult_status r' with h' | h' | h' <;>
        rw [herr] at h' <;> exact absurd h' (by decide)
    · left; exact h
    · right; exact h
  · intro hconf
    simp [validateResult, hconf]
  · intro hev
    simp [validateResult, hev]

/-! ### Claim C8: no-evidence short circuit -/

/-- C8: when the vector search returns no relevant chunks and the
section-aware enrichment produced no evidence, `analyze_chunk` returns the
ai.py:560-568 record immediately — status `N/A`, confidence 0.0, a
suggestion to add explicit disclosure — and no completion-API call is ever
issued on the run. -/
theorem claim8_no_evidence_short_circuit (env : ChunkEnv) (st : AiGlobalState)
    (d : String)
    (hdoc : env.currentDocumentId = some d) (hne : ¬ d = "")
    (hdup : (checkDuplicateQuestion env.questionHash env.question d
      st.processedQuestions).1 = false)
    (hopen : st.circuit.breakerOpen = false)
    (hf : st.circuit.consecutiveFailures < CIRCUIT_BREAKER_THRESHOLD)
    (hvs : env.vectorStoreReady = true)
    (hchunks : env.relevantChunks = [])
    (henh : env.enhancedOutcome = none) :
    (analyzeChunk env st).1 = noEvidenceShortCircuitResult
    ∧ (analyzeChunk env st).1.status = "N/A"
    ∧ (analyzeChunk env st).1.confidence = 0
    ∧ (analyzeChunk env st).1.suggestion
        = some "Add a clear statement in the financial statement disclosures addressing this requirement."
    ∧ Event.modelCall ∉ (analyzeChunk env st).2.2 := by
  have hcb : checkCircuitBreaker env.now st.circuit = Except.ok st.circuit := by
    simp [checkCircuitBreaker, hopen, not_le.mpr hf]
  have hmain : analyzeChunk env st
      = (noEvidenceShortCircuitResult,
          { processedQuestions := (checkDuplicateQuestion env.questionHash
              env.question d st.processedQuestions).2,
            circuit := st.circuit },
          [Event.dupCheck, Event.circuitCheck]) := by
    simp [analyzeChunk, hdoc, hne, hdup, hcb, hvs, hchunks, henh]
  rw [hmain]
  exact ⟨rfl, rfl, rfl, rfl, by simp⟩

/-- C8 at a concrete input: the short circuit fires and no completion-API
call is issued. -/
theorem claim8_no_evidence_short_circuit_witness :
    (analyzeChunk claim8Env claim8State).1 = noEvidenceShortCircuitResult
    ∧ (analyzeChunk claim8Env claim8State).1.status = "N/A"
    ∧ (analyzeChunk claim8Env claim8State).1.confidence = 0
    ∧ (analyzeChunk claim8Env claim8State).1.suggestion
        = some "Add a clear statement in the financial statement disclosures addressing this requirement."
    ∧ Event.modelCall ∉ (analyzeChunk claim8Env claim8State).2.2 :=
  claim8_no_evidence_short_circuit claim8Env claim8State "doc8"
    rfl (by decide) (by decide) rfl (by decide) rfl rfl rfl

theorem batches_join_aux {α : Type} (n : ℕ) (hn : n ≠ 0) :
    ∀ (N : ℕ) (xs : List α), xs.length ≤ N → (batches n xs).flatten = xs := by
  intro N
  induction N with
  | zero =>
    intro xs hlen
    have hxs : xs.length = 0 := Nat.le_zero.mp hlen
    unfold batches
    simp [hxs, List.length_eq_zero.mp hxs]
  | succ N ih =>
    intro xs hlen
    unfold batches
    by_cases h : xs.length = 0 ∨ n = 0
    · rcases h with h | h
      · simp [h, List.length_eq_zero.mp h]
      · exact absurd h hn
    · push_neg at h
      obtain ⟨hxs, _⟩ := h
      rw [dif_neg (by push_neg; exact ⟨hxs, hn⟩)]
      have hdrop : (xs.drop n).length ≤ N := by
        simp only [List.length_drop]
        omega
      simp only [List.flatten]
      rw [ih (xs.drop n) hdrop, List.take_append_drop]

/-- Splitting into batches and re-joining is the identity (for a positive
batch size). -/
theorem batches_join {α : Type} (n : ℕ) (hn : n ≠ 0) (xs : List α) :
    (batches n xs).flatten = xs :=
  batches_join_aux n hn xs.length xs le_rfl

theorem processSection_length (answer : String → AnalysisResult)
    (sec : ChecklistSection) :
    (processSection answer sec).items.length = sec.items.length := by
  have h : ((batches CHUNK_SIZE sec.items).map
      (fun batch => batch.map (processItem answer))).flatten.length
      = (batches CHUNK_SIZE sec.items).flatten.length := by
    simp only [List.length_flatten, List.map_map]
    congr 1
    exact List.map_congr_left (fun b _ => by simp)
  calc (processSection answer sec).items.length
      = ((batches CHUNK_SIZE sec.items).map
          (fun batch => batch.map (processItem answer))).flatten.length := rfl
    _ = (batches CHUNK_SIZE sec.items).flatten.length := h
    _ = sec.items.length := by rw [batches_join CHUNK_SIZE (by decide) sec.items]

/-- C3: for every section and every total answering oracle, `_process_section`
produces exactly one result entry per checklist item, and over a standard's
sections the number of result entries equals the number of questions in the
standard's checklist. -/
theorem claim3_one_result_per_question (answer : String → AnalysisResult)
    (sec : ChecklistSection) (sections : List ChecklistSection) :
    (processSection answer sec).items.length = sec.items.length
    ∧ totalResultItems (processStandardSections answer sections)
      = totalChecklistQuestions sections := by
  refine ⟨processSection_length answer sec, ?_⟩
  unfold totalResultItems processStandardSections totalChecklistQuestions
  rw [List.map_map]
  congr 1
  exact List.map_congr_left (fun s _ => processSection_length answer s)

theorem processStandards_spec (outcome : String → StandardOutcome)
    (standards : List String) :
    (processStandardsSequentially outcome standards).2
      = standards.filterMap (fun s =>
          match outcome s with
          | StandardOutcome.ok _ => none
          | StandardOutcome.err e => some ⟨s, e⟩)
    ∧ (processStandardsSequentially outcome standards).1
      = (standards.map (fun s =>
          match outcome s with
          | StandardOutcome.ok raw => tagSections s raw
          | StandardOutcome.err _ => [])).flatten := by
  induction standards with
  | nil => exact ⟨rfl, rfl⟩
  | cons s rest ih =>
    rcases h : outcome s with raw | e <;>
      simp [processStandardsSequentially, h, List.filterMap_cons, ih.1, ih.2]

theorem processStandards_failed_length (outcome : String → StandardOutcome)
    (standards : List String) :
    (processStandardsSequentially outcome standards).2.length
      = (standards.filter (fun s => outcomeFailed (outcome s))).length := by
  induction standards with
  | nil => rfl
  | cons s rest ih =>
    rcases h : outcome s with raw | e <;>
      simp [processStandardsSequentially, h, outcomeFailed, List.filter_cons, ih]

/-- C2: across the caller-supplied standards, in order, every standard whose
body raised contributes exactly its `{standard, error}` record to
`failed_standards`, and every standard contributes its tagged sections or
its failure record independently of what happened to earlier standards —
the outputs are the order-preserving concatenations over the whole list, so
no per-standard exception aborts the run or skips later standards. -/
theorem claim2_per_standard_fault_isolation (outcome : String → StandardOutcome)
    (standards : List String) :
    (processStandardsSequentially outcome standards).2
      = standards.filterMap (fun s =>
          match outcome s with
          | StandardOutcome.ok _ => none
          | StandardOutcome.err e => some ⟨s, e⟩)
    ∧ (processStandardsSequentially outcome standards).1
      = (standards.map (fun s =>
          match outcome s with
          | StandardOutcome.ok raw => tagSections s raw
          | StandardOutcome.err _ => [])).flatten :=
  processStandards_spec outcome standards

/-- C1: for a non-empty standards list, the final status is `FAILED` exactly
when every standard's body failed, `COMPLETED_WITH_ERRORS` exactly when at
least one but not all failed, and `COMPLETED` exactly when none failed. -/
theorem claim1_final_status (outcome : String → StandardOutcome)
    (standards : List String) (hne : standards ≠ []) :
    ((processComplianceAnalysis outcome standards).1 = RunStatus.FAILED
      ↔ ∀ s ∈ standards, outcomeFailed (outcome s) = true)
    ∧ ((processComplianceAnalysis outcome standards).1
        = RunStatus.COMPLETED_WITH_ERRORS
      ↔ ((∃ s ∈ standards, outcomeFailed (outcome s) = true)
          ∧ ∃ s ∈ standards, outcomeFailed (outcome s) = false))
    ∧ ((processComplianceAnalysis outcome standards).1 = RunStatus.COMPLETED
      ↔ ∀ s ∈ standards, outcomeFailed (outcome s) = false) := by
  have hstat : (processComplianceAnalysis outcome standards).1
      = handleAnalysisCompletion standards
          (processStandardsSequentially outcome standards).2 := by
    simp [processComplianceAnalysis, hne]
  set p := fun s => outcomeFailed (outcome s) with hp
  have hk : (processStandardsSequentially outcome standards).2.length
      = (standards.filter p).length :=
    processStandards_failed_length outcome standards
  have hle : (standards.filter p).length ≤ standards.length :=
    List.length_filter_le p standards
  have hall : (standards.filter p).length = standards.length
      ↔ ∀ s ∈ standards, p s = true := by
    constructor
    · intro h
      exact List.filter_eq_self.mp
        ((List.filter_sublist standards).eq_of_length h)
    · intro h
      rw [List.filter_eq_self.mpr h]
  have hpos : 0 < (standards.filter p).length
      ↔ ∃ s ∈ standards, p s = true := by
    rw [List.length_pos, Ne, List.filter_eq_nil_iff]
    push_neg
    rfl
  have hzero : (standards.filter p).length = 0
      ↔ ∀ s ∈ standards, p s = false := by
    rw [List.length_eq_zero, List.filter_eq_nil_iff]
    simp [Bool.not_eq_true]
  have hnelen : 0 < standards.length := List.length_pos.mpr hne
  rw [hstat]
  unfold handleAnalysisCompletion
  rw [hk]
  by_cases hfail : (standards.filter p).length = standards.length
  · rw [if_pos hfail]
    refine ⟨iff_of_true rfl (hall.mp hfail), iff_of_false (by decide) ?_,
      iff_of_false (by decide) ?_⟩
    · rintro ⟨-, s, hs, hfalse⟩
      have htrue : outcomeFailed (outcome s) = true := hall.mp hfail s hs
      rw [hfalse] at htrue
      exact absurd htrue (by decide)
    · intro h
      have h0 : (standards.filter p).length = 0 := hzero.mpr h
      omega
  · rw [if_neg hfail]
    by_cases hsome : 0 < (standards.filter p).length
    · rw [if_pos hsome]
      refine ⟨iff_of_false (by decide) ?_, iff_of_true rfl ⟨hpos.mp hsome, ?_⟩,
        iff_of_false (by decide) ?_⟩
      · intro h
        exact hfail (hall.mpr h)
      · by_contra hno
        push_neg at hno
        have hforall : ∀ s ∈ standards, p s = true := by
          intro s hs
          rcases Bool.eq_false_or_eq_true (outcomeFailed (outcome s)) with h | h
          · exact h
          · exact absurd h (hno s hs)
        exact hfail (hall.mpr hforall)
      · intro h
        have h0 : (standards.filter p).length = 0 := hzero.mpr h
        omega
    · rw [if_neg hsome]
      have h0 : (standards.filter p).length = 0 := by omega
      refine ⟨iff_of_false (by decide) ?_, iff_of_false (by decide) ?_,
        iff_of_true rfl (hzero.mp h0)⟩
      · intro h
        have := hall.mpr h
        omega
      · rintro ⟨⟨s, hs, htrue⟩, -⟩
        have hfalse : outcomeFailed (outcome s) = false := hzero.mp h0 s hs
        rw [htrue] at hfalse
        exact absurd hfalse (by decide)

/-- C1 at a concrete input: of `["IAS_1", "IAS_40"]` exactly one standard
fails, so the run ends `COMPLETED_WITH_ERRORS`. -/
theorem claim1_final_status_witness :
    (processComplianceAnalysis claim1Outcome ["IAS_1", "IAS_40"]).1
      = RunStatus.COMPLETED_WITH_ERRORS :=
  (claim1_final_status claim1Outcome ["IAS_1", "IAS_40"]
    (by decide)).2.1.mpr
    ⟨⟨"IAS_40", by decide, by decide⟩, ⟨"IAS_1", by decide, by decide⟩⟩

theorem lookup_ainsert_cases {α : Type} (k₀ k : String) (v : α)
    (m : List (String × α)) :
    alookup k (ainsert k₀ v m) = if k = k₀ then some v else alookup k m := by
  by_cases h : k = k₀
  · subst h
    rw [if_pos rfl, alookup_ainsert_self]
  · rw [if_neg h, alookup_ainsert_ne h]

/-! ### Claim C10: mutators on unknown documents/standards are no-ops -/

/-- C10: every `ProgressTracker` mutator invoked for a document id with no
active analysis — and every standard-scoped mutator invoked for a standard
id not registered in the document's tree — returns with the tracker's
in-memory registry and the persisted progress records completely
unchanged. -/
theorem claim10_unknown_target_noop (st : TrackerState)
    (d s q cur msg : String) (now : ℚ) (total cnt : ℕ)
    (qs : List QuestionData) :
    (alookup d st.active = none →
      startStandard now d s total st = st
      ∧ initializeQuestions d s qs st = st
      ∧ markQuestionProcessing d s q st = st
      ∧ markQuestionCompleted now d s q st = st
      ∧ markQuestionFailed d s q st = st
      ∧ updateQuestionProgress d s cur cnt st = st
      ∧ completeStandard now d s st = st
      ∧ failAnalysis now d msg st = st
      ∧ cleanupAnalysis d st = st)
    ∧ (∀ p, alookup d st.active = some p →
        alookup s p.standardsProgress = none →
      startStandard now d s total st = st
      ∧ initializeQuestions d s qs st = st
      ∧ markQuestionProcessing d s q st = st
      ∧ markQuestionCompleted now d s q st = st
      ∧ markQuestionFailed d s q st = st
      ∧ updateQuestionProgress d s cur cnt st = st
      ∧ completeStandard now d s st = st) := by
  constructor
  · intro h
    refine ⟨?_, ?_, ?_, ?_, ?_, ?_, ?_, ?_, ?_⟩ <;>
      simp only [startStandard, initializeQuestions, markQuestionProcessing,
        markQuestionCompleted, markQuestionFailed, updateQuestionProgress,
        completeStandard, failAnalysis, cleanupAnalysis, h]
  · intro p hp hs
    refine ⟨?_, ?_, ?_, ?_, ?_, ?_, ?_⟩ <;>
      simp only [startStandard, initializeQuestions, markQuestionProcessing,
        markQuestionCompleted, markQuestionFailed, updateQuestionProgress,
        completeStandard, hp, hs]

/-- C9 (counterexample): the counters are not monotone over every sequence
of the three operations — `update_question_progress` assigns the
caller-supplied count directly (progress_tracker.py:352), so updating with
5 and then with 3 drops `completed_questions` from 5 to 3. -/
theorem claim9_counterexample :
    ¬ (∀ (st : TrackerState) (d s : String) (ops pre : List TrackOp),
        pre <+: ops →
        completedQuestionsOf (applyOps st pre) d s
          ≤ completedQuestionsOf (applyOps st ops) d s) := by
  intro h
  have h2 := h claim9State "doc1" "IAS_1"
    [TrackOp.updateProgress "doc1" "IAS_1" "q5" 5,
     TrackOp.updateProgress "doc1" "IAS_1" "q3" 3]
    [TrackOp.updateProgress "doc1" "IAS_1" "q5" 5]
    ⟨[TrackOp.updateProgress "doc1" "IAS_1" "q3" 3], rfl⟩
  exact absurd h2 (by decide)

theorem countCompleted_le_ainsert (q : String) (qp' : QuestionProgress)
    (hq' : qp'.status = "completed") (qps : List (String × QuestionProgress)) :
    countCompleted qps ≤ countCompleted (ainsert q qp' qps) := by
  induction qps with
  | nil => simp [countCompleted, ainsert, List.filter_cons, hq']
  | cons hd tl ih =>
    obtain ⟨k, v⟩ := hd
    by_cases hk : k = q
    · subst hk
      simp only [ainsert, if_pos rfl, countCompleted, List.filter_cons, hq']
      split_ifs <;> simp_all [countCompleted]
    · simp only [ainsert, if_neg hk, countCompleted, List.filter_cons]
      split_ifs <;> simp_all [countCompleted]

theorem completedStandardsOf_update (st : TrackerState) (d₀ : String)
    (p' : AnalysisProgress) (d : String) :
    completedStandardsOf
        (saveProgress d₀ p' { st with active := ainsert d₀ p' st.active }) d
      = if d = d₀ then p'.completedStandards else completedStandardsOf st d := by
  unfold completedStandardsOf saveProgress
  dsimp only
  rw [lookup_ainsert_cases]
  by_cases hdd : d = d₀
  · rw [if_pos hdd, if_pos hdd]
  · rw [if_neg hdd, if_neg hdd]

theorem completedQuestionsOf_update (st : TrackerState) (d₀ s₀ : String)
    (p' : AnalysisProgress) (sp' : StandardProgress)
    (base : List (String × StandardProgress)) (d s : String)
    (hps : p'.standardsProgress = ainsert s₀ sp' base) :
    completedQuestionsOf
        (saveProgress d₀ p' { st with active := ainsert d₀ p' st.active }) d s
      = if d = d₀ then
          (if s = s₀ then sp'.completedQuestions
           else match alookup s base with
             | none => 0
             | some sp => sp.completedQuestions)
        else completedQuestionsOf st d s := by
  unfold completedQuestionsOf saveProgress
  dsimp only
  rw [lookup_ainsert_cases]
  by_cases hdd : d = d₀
  · rw [if_pos hdd, if_pos hdd]
    dsimp only
    rw [hps, lookup_ainsert_cases]
    by_cases hss : s = s₀
    · rw [if_pos hss, if_pos hss]
    · rw [if_neg hss, if_neg hss]
  · rw [if_neg hdd, if_neg hdd]

theorem completedQuestionsOf_of_lookup {st : TrackerState} {d : String}
    {p : AnalysisProgress} (hd : alookup d st.active = some p) (s : String) :
    completedQuestionsOf st d s
      = match alookup s p.standardsProgress with
        | none => 0
        | some sp => sp.completedQuestions := by
  unfold completedQuestionsOf
  rw [hd]

theorem completedStandardsOf_of_lookup {st : TrackerState} {d : String}
    {p : AnalysisProgress} (hd : alookup d st.active = some p) :
    completedStandardsOf st d = p.completedStandards := by
  unfold completedStandardsOf
  rw [hd]

theorem markCompleted_mono (now : ℚ) (d₀ s₀ q₀ : String) (st : TrackerState)
    (hc : Consistent st) (d s : String) :
    completedQuestionsOf st d s
      ≤ completedQuestionsOf (markQuestionCompleted now d₀ s₀ q₀ st) d s := by
  unfold markQuestionCompleted
  rcases hd : alookup d₀ st.active with _ | p
  · simp only [hd]
    exact le_refl _
  rcases hs : alookup s₀ p.standardsProgress with _ | sp
  · simp only [hd, hs]
    exact le_refl _
  rcases hq : alookup q₀ sp.questionsProgress with _ | qp
  · simp only [hd, hs, hq]
    exact le_refl _
  simp only [hd, hs, hq]
  rw [completedQuestionsOf_update st d₀ s₀ _ _ p.standardsProgress d s rfl]
  by_cases hdd : d = d₀
  · rw [if_pos hdd]
    subst hdd
    by_cases hss : s = s₀
    · rw [if_pos hss]
      subst hss
      rw [completedQuestionsOf_of_lookup hd s, hs]
      show sp.completedQuestions
        ≤ countCompleted (ainsert q₀
            { qp with status := "completed", completedAt := some now }
            sp.questionsProgress)
      rw [hc d p hd s sp hs]
      exact countCompleted_le_ainsert q₀ _ rfl _
    · rw [if_neg hss, completedQuestionsOf_of_lookup hd s]
  · rw [if_neg hdd]

theorem markCompleted_standards_eq (now : ℚ) (d₀ s₀ q₀ : String)
    (st : TrackerState) (d : String) :
    completedStandardsOf (markQuestionCompleted now d₀ s₀ q₀ st) d
      = completedStandardsOf st d := by
  unfold markQuestionCompleted
  rcases hd : alookup d₀ st.active with _ | p
  · simp only [hd]
  rcases hs : alookup s₀ p.standardsProgress with _ | sp
  · simp only [hd, hs]
  rcases hq : alookup q₀ sp.questionsProgress with _ | qp
  · simp only [hd, hs, hq]
  simp only [hd, hs, hq]
  rw [completedStandardsOf_update]
  by_cases hdd : d = d₀
  · rw [if_pos hdd]
    subst hdd
    rw [completedStandardsOf_of_lookup hd]
  · rw [if_neg hdd]

theorem updateProgress_standards_eq (d₀ s₀ cur : String) (cnt : ℕ)
    (st : TrackerState) (d : String) :
    completedStandardsOf (updateQuestionProgress d₀ s₀ cur cnt st) d
      = completedStandardsOf st d := by
  unfold updateQuestionProgress
  rcases hd : alookup d₀ st.active with _ | p
  · simp only [hd]
  rcases hs : alookup s₀ p.standardsProgress with _ | sp
  · simp only [hd, hs]
  simp only [hd, hs]
  rw [completedStandardsOf_update]
  by_cases hdd : d = d₀
  · rw [if_pos hdd]
    subst hdd
    rw [completedStandardsOf_of_lookup hd]
  · rw [if_neg hdd]

theorem completeStd_standards_mono (now : ℚ) (d₀ s₀ : String)
    (st : TrackerState) (d : String) :
    completedStandardsOf st d
      ≤ completedStandardsOf (completeStandard now d₀ s₀ st) d := by
  unfold completeStandard
  rcases hd : alookup d₀ st.active with _ | p
  · simp only [hd]
    exact le_refl _
  rcases hs : alookup s₀ p.standardsProgress with _ | sp
  · simp only [hd, hs]
    exact le_refl _
  simp only [hd, hs]
  by_cases hfin : p.totalStandards ≤ p.completedStandards + 1
  · rw [if_pos hfin, completedStandardsOf_update]
    by_cases hdd : d = d₀
    · rw [if_pos hdd]
      subst hdd
      rw [completedStandardsOf_of_lookup hd]
      exact Nat.le_succ _
    · rw [if_neg hdd]
  · rw [if_neg hfin, completedStandardsOf_update]
    by_cases hdd : d = d₀
    · rw [if_pos hdd]
      subst hdd
      rw [completedStandardsOf_of_lookup hd]
      exact Nat.le_succ _
    · rw [if_neg hdd]

theorem completeStd_questions_mono (now : ℚ) (d₀ s₀ : String)
    (st : TrackerState) (d s : String) :
    completedQuestionsOf st d s
      ≤ completedQuestionsOf (completeStandard now d₀ s₀ st) d s := by
  unfold completeStandard
  rcases hd : alookup d₀ st.active with _ | p
  · simp only [hd]
    exact le_refl _
  rcases hs : alookup s₀ p.standardsProgress with _ | sp
  · simp only [hd, hs]
    exact le_refl _
  simp only [hd, hs]
  by_cases hfin : p.totalStandards ≤ p.completedStandards + 1
  · rw [if_pos hfin,
      completedQuestionsOf_update st d₀ s₀ _ _ p.standardsProgress d s rfl]
    by_cases hdd : d = d₀
    · rw [if_pos hdd]
      subst hdd
      by_cases hss : s = s₀
      · rw [if_pos hss]
        subst hss
        rw [completedQuestionsOf_of_lookup hd s, hs]
      · rw [if_neg hss, completedQuestionsOf_of_lookup hd s]
    · rw [if_neg hdd]
  · rw [if_neg hfin,
      completedQuestionsOf_update st d₀ s₀ _ _ p.standardsProgress d s rfl]
    by_cases hdd : d = d₀
    · rw [if_pos hdd]
      subst hdd
      by_cases hss : s = s₀
      · rw [if_pos hss]
        subst hss
        rw [completedQuestionsOf_of_lookup hd s, hs]
      · rw [if_neg hss, completedQuestionsOf_of_lookup hd s]
    · rw [if_neg hdd]

theorem consistent_markCompleted (now : ℚ) (d₀ s₀ q₀ : String)
    (st : TrackerState) (hc : Consistent st) :
    Consistent (markQuestionCompleted now d₀ s₀ q₀ st) := by
  unfold markQuestionCompleted
  rcases hd : alookup d₀ st.active with _ | p
  · simp only [hd]
    exact hc
  rcases hs : alookup s₀ p.standardsProgress with _ | sp
  · simp only [hd, hs]
    exact hc
  rcases hq : alookup q₀ sp.questionsProgress with _ | qp
  · simp only [hd, hs, hq]
    exact hc
  simp only [hd, hs, hq]
  unfold Consistent saveProgress
  dsimp only
  intro d p₂ hd₂ s sp₂ hs₂
  rw [lookup_ainsert_cases] at hd₂
  by_cases hdd : d = d₀
  · rw [if_pos hdd] at hd₂
    injection hd₂ with hp₂
    subst hp₂
    dsimp only at hs₂
    rw [lookup_ainsert_cases] at hs₂
    by_cases hss : s = s₀
    · rw [if_pos hss] at hs₂
      injection hs₂ with hsp₂
      subst hsp₂
      rfl
    · rw [if_neg hss] at hs₂
      exact hc d₀ p hd s sp₂ hs₂
  · rw [if_neg hdd] at hd₂
    exact hc d p₂ hd₂ s sp₂ hs₂

theorem consistent_completeStd (now : ℚ) (d₀ s₀ : String)
    (st : TrackerState) (hc : Consistent st) :
    Consistent (completeStandard now d₀ s₀ st) := by
  unfold completeStandard
  rcases hd : alookup d₀ st.active with _ | p
  · simp only [hd]
    exact hc
  rcases hs : alookup s₀ p.standardsProgress with _ | sp
  · simp only [hd, hs]
    exact hc
  simp only [hd, hs]
  by_cases hfin : p.totalStandards ≤ p.completedStandards + 1 <;>
    [rw [if_pos hfin]; rw [if_neg hfin]] <;>
  · unfold Consistent saveProgress
    dsimp only
    intro d p₂ hd₂ s sp₂ hs₂
    rw [lookup_ainsert_cases] at hd₂
    by_cases hdd : d = d₀
    · rw [if_pos hdd] at hd₂
      injection hd₂ with hp₂
      subst hp₂
      dsimp only at hs₂
      rw [lookup_ainsert_cases] at hs₂
      by_cases hss : s = s₀
      · rw [if_pos hss] at hs₂
        injection hs₂ with hsp₂
        subst hsp₂
        exact hc d₀ p hd s₀ sp hs
      · rw [if_neg hss] at hs₂
        exact hc d₀ p hd s sp₂ hs₂
    · rw [if_neg hdd] at hd₂
      exact hc d p₂ hd₂ s sp₂ hs₂

theorem applyOp_standards_mono (st : TrackerState) (op : TrackOp) (d : String) :
    completedStandardsOf st d ≤ completedStandardsOf (applyOp st op) d := by
  cases op with
  | markCompleted now d₀ s₀ q₀ =>
    exact le_of_eq (markCompleted_standards_eq now d₀ s₀ q₀ st d).symm
  | updateProgress d₀ s₀ cur cnt =>
    exact le_of_eq (updateProgress_standards_eq d₀ s₀ cur cnt st d).symm
  | completeStd now d₀ s₀ =>
    exact completeStd_standards_mono now d₀ s₀ st d

/-- C9 (amended): across any sequence of the three operations,
`completed_standards` never decreases; and `completed_questions` never
decreases across any sequence of `mark_question_completed` and
`complete_standard` operations from a consistent state (counter = recount,
as `start_standard`/`initialize_questions`/`mark_question_completed`
establish).  `update_question_progress` is excluded from the second part:
it writes the caller-supplied count directly and can decrease the counter
(see the counterexample). -/
theorem claim9_monotonicity (st : TrackerState) (ops : List TrackOp)
    (d s : String) :
    completedStandardsOf st d ≤ completedStandardsOf (applyOps st ops) d
    ∧ (Consistent st → (∀ op ∈ ops, opRecountBased op = true) →
        completedQuestionsOf st d s
          ≤ completedQuestionsOf (applyOps st ops) d s) := by
  induction ops generalizing st with
  | nil => exact ⟨le_refl _, fun _ _ => le_refl _⟩
  | cons op rest ih =>
    constructor
    · show completedStandardsOf st d
        ≤ completedStandardsOf (applyOps (applyOp st op) rest) d
      exact le_trans (applyOp_standards_mono st op d) (ih (applyOp st op)).1
    · intro hc hsafe
      show completedQuestionsOf st d s
        ≤ completedQuestionsOf (applyOps (applyOp st op) rest) d s
      cases op with
      | markCompleted now d₀ s₀ q₀ =>
        exact le_trans (markCompleted_mono now d₀ s₀ q₀ st hc d s)
          ((ih _).2 (consistent_markCompleted now d₀ s₀ q₀ st hc)
            (fun o ho => hsafe o (List.mem_cons_of_mem _ ho)))
      | updateProgress d₀ s₀ cur cnt =>
        have hbad := hsafe _ (List.mem_cons_self _ _)
        simp [opRecountBased] at hbad
      | completeStd now d₀ s₀ =>
        exact le_trans (completeStd_questions_mono now d₀ s₀ st d s)
          ((ih _).2 (consistent_completeStd now d₀ s₀ st hc)
            (fun o ho => hsafe o (List.mem_cons_of_mem _ ho)))

/-- C10 at a concrete input: every mutator invoked on an untracked document
(or unregistered standard) leaves a concrete one-document tracker state
unchanged. -/
theorem claim10_unknown_target_noop_witness :
    (startStandard 0 "ghost" "IAS_1" 3 claim9State = claim9State
      ∧ initializeQuestions "ghost" "IAS_1" [] claim9State = claim9State
      ∧ markQuestionProcessing "ghost" "IAS_1" "q1" claim9State = claim9State
      ∧ markQuestionCompleted 0 "ghost" "IAS_1" "q1" claim9State = claim9State
      ∧ markQuestionFailed "ghost" "IAS_1" "q1" claim9State = claim9State
      ∧ updateQuestionProgress "ghost" "IAS_1" "q1" 2 claim9State = claim9State
      ∧ completeStandard 0 "ghost" "IAS_1" claim9State = claim9State
      ∧ failAnalysis 0 "ghost" "err" claim9State = claim9State
      ∧ cleanupAnalysis "ghost" claim9State = claim9State) :=
  (claim10_unknown_target_noop claim9State "ghost" "IAS_1" "q1" "q1" "err" 0 3 2
    []).1 rfl
